import Mathlib

/-!
# Verification of the `swr` stale-while-revalidate cache core

This file shallowly embeds the core data model and operations of the `swr`
crate (a stale-while-revalidate data-fetching cache for immediate-mode GUIs)
and proves properties of the embedding.

Modelling conventions:
* Machine integers are modelled as `Nat` with explicit `% 2 ^ w` where
  wrap-around matters (`u32` truncation in `duration_as_optional_millis`,
  `u8` wrap of the retry counter).
* `std::time::Instant` values are modelled as `Nat` nanosecond timestamps;
  `Duration` values as `Nat` nanosecond counts.  `Instant::elapsed` becomes
  truncating `Nat` subtraction `now - t`, which matches the saturating
  behaviour of `Instant` arithmetic under a monotone clock.
* `NonZeroU8` / `NonZeroU32` are subtypes of `Nat`.
* Type-erased payloads (`Arc<dyn Any>`) are modelled as a `Nat` value tagged
  with a `Nat` runtime type identifier; distinct Rust types have distinct
  identifiers.
* Atomic bit flags of the status word are modelled as a structure of `Bool`s,
  one per bit.
-/

namespace SWR

/-- Rust `NonZeroU8` from `std::num`: a byte value that is never zero. -/
def NonZeroU8 : Type := { n : Nat // 0 < n ∧ n < 256 }

instance : DecidableEq NonZeroU8 := fun a b =>
  decidable_of_iff (a.val = b.val) Subtype.ext_iff.symm

instance : LinearOrder NonZeroU8 := by
  unfold NonZeroU8; infer_instance

/-- Rust `merge_min` (src/options.rs): take the minimum of two optional values,
treating `none` as "no constraint". -/
def merge_min {α : Type} [LinearOrder α] (a b : Option α) : Option α :=
  match a, b with
  | some a, some b => some (min a b)
  | some a, none => some a
  | none, some b => some b
  | none, none => none

/-- Rust `duration_as_optional_millis` (src/options.rs):
`a.and_then(|d| NonZeroU32::new(d.as_millis() as u32))`.
The duration (in nanoseconds) is converted to whole milliseconds, truncated to
32 bits by the `as u32` cast, and a zero result becomes `none` (that is what
`NonZeroU32::new` returns on `0`). -/
def duration_as_optional_millis (a : Option Nat) : Option Nat :=
  a.bind fun d =>
    let m := (d / 1000000) % 4294967296
    if m = 0 then none else some m

/-- Rust `RevalidateFlags` (src/options.rs): the three boolean stored options,
packed as bits in the source (`ON_FIRST_USE`, `ON_FOCUS`, `WHEN_UNFOCUSED`);
`set` only ever ORs bits in. -/
structure RevalidateFlags where
  onFirstUse : Bool
  onFocus : Bool
  whenUnfocused : Bool
deriving DecidableEq, Repr

/-- Per-call `Options<T>` (src/options.rs).  The `fallback : Option<Arc<T>>`
payload is modelled as an optional `Nat` value; durations are nanoseconds. -/
structure Options where
  fallback : Option Nat
  fetch_on_first_use : Bool
  garbage_collect_timeout : Option Nat
  revalidate_on_focus : Bool
  focus_throttle_interval : Option Nat
  refresh_interval : Option Nat
  refresh_when_unfocused : Bool
  error_retry_interval : Option Nat
  error_retry_count : Option NonZeroU8
  throttle : Option Nat
deriving DecidableEq

/-- Rust `impl Default for Options` (src/options.rs). -/
def Options.default : Options where
  fallback := none
  fetch_on_first_use := true
  garbage_collect_timeout := some (600 * 1000000000)
  revalidate_on_focus := true
  focus_throttle_interval := some (5 * 1000000000)
  refresh_interval := none
  refresh_when_unfocused := false
  error_retry_interval := some (5 * 1000000000)
  error_retry_count := some ⟨5, by decide⟩
  throttle := some (2 * 1000000000)

/-- Rust `Options::immutable` (src/options.rs): the defaults with
`revalidate_on_focus = false` and `garbage_collect_timeout = None`. -/
def Options.immutable : Options :=
  { Options.default with revalidate_on_focus := false, garbage_collect_timeout := none }

/-- Rust `StoredOptions` (src/options.rs): the per-entry merged options.  Durations
are stored as optional nonzero millisecond counts (`Option<NonZeroU32>` in the
source); the nonzero invariant is maintained by `duration_as_optional_millis`
and is not enforced structurally here. -/
structure StoredOptions where
  revalidateFlags : RevalidateFlags
  errorRetryCount : Option NonZeroU8
  garbageCollectTimeoutMs : Option Nat
  focusThrottleIntervalMs : Option Nat
  refreshIntervalMs : Option Nat
  errorRetryIntervalMs : Option Nat
  throttleMs : Option Nat
deriving DecidableEq

/-- The all-empty `StoredOptions` value built at the start of
`StoredOptions::default` (src/options.rs), before the defaults are merged. -/
def StoredOptions.empty : StoredOptions where
  revalidateFlags := ⟨false, false, false⟩
  errorRetryCount := none
  garbageCollectTimeoutMs := none
  focusThrottleIntervalMs := none
  refreshIntervalMs := none
  errorRetryIntervalMs := none
  throttleMs := none

/-- Rust `StoredOptions::update_from_inner` (src/options.rs).  Note that in the
source BOTH `ON_FIRST_USE` and `ON_FOCUS` are set under
`if options.fetch_on_first_use` (lines 159-165): the second `if` tests
`fetch_on_first_use` where its body sets `ON_FOCUS`, and `revalidate_on_focus`
is never read.  The embedding reproduces that behaviour faithfully. -/
def StoredOptions.update_from_inner (self : StoredOptions) (options : Options) : StoredOptions where
  revalidateFlags :=
    { onFirstUse := self.revalidateFlags.onFirstUse || options.fetch_on_first_use
      onFocus := self.revalidateFlags.onFocus || options.fetch_on_first_use
      whenUnfocused := self.revalidateFlags.whenUnfocused || options.refresh_when_unfocused }
  garbageCollectTimeoutMs :=
    merge_min self.garbageCollectTimeoutMs (duration_as_optional_millis options.garbage_collect_timeout)
  focusThrottleIntervalMs :=
    merge_min self.focusThrottleIntervalMs (duration_as_optional_millis options.focus_throttle_interval)
  refreshIntervalMs :=
    merge_min self.refreshIntervalMs (duration_as_optional_millis options.refresh_interval)
  errorRetryIntervalMs :=
    merge_min self.errorRetryIntervalMs (duration_as_optional_millis options.error_retry_interval)
  errorRetryCount := merge_min self.errorRetryCount options.error_retry_count
  throttleMs := merge_min self.throttleMs (duration_as_optional_millis options.throttle)

/-- Rust `impl Default for StoredOptions` (src/options.rs): the empty value updated
from `Options::default()` ("Inherit our options from the default values for
`Options`"). -/
def StoredOptions.default : StoredOptions :=
  StoredOptions.empty.update_from_inner Options.default

/-- Rust `StoredOptions::garbage_collect_timeout` (src/options.rs): the stored
millisecond count as a `Duration` (nanoseconds here). -/
def StoredOptions.garbage_collect_timeout (s : StoredOptions) : Option Nat :=
  s.garbageCollectTimeoutMs.map (· * 1000000)

/-- Rust `StoredOptions::focus_throttle_interval` (src/options.rs). -/
def StoredOptions.focus_throttle_interval (s : StoredOptions) : Option Nat :=
  s.focusThrottleIntervalMs.map (· * 1000000)

/-- Rust `StoredOptions::refresh_interval` (src/options.rs). -/
def StoredOptions.refresh_interval (s : StoredOptions) : Option Nat :=
  s.refreshIntervalMs.map (· * 1000000)

/-- Rust `StoredOptions::error_retry_interval` (src/options.rs). -/
def StoredOptions.error_retry_interval (s : StoredOptions) : Option Nat :=
  s.errorRetryIntervalMs.map (· * 1000000)

/-- Rust `StoredOptions::throttle` (src/options.rs). -/
def StoredOptions.throttle (s : StoredOptions) : Option Nat :=
  s.throttleMs.map (· * 1000000)

/-- Rust `CacheEntryStatus` (src/cache/entry.rs): the packed atomic status word,
modelled with one `Bool` per bit (`HAS_DATA`, `HAS_ERROR`, `LOADING`,
`VALIDATING`, `ALIVE`, `USED_THIS_PASS`). -/
structure CacheEntryStatus where
  hasData : Bool
  hasError : Bool
  loading : Bool
  validating : Bool
  alive : Bool
  usedThisPass : Bool
deriving DecidableEq, Repr

/-- Rust `CacheEntryStatus::new` (src/cache/entry.rs): all bits clear. -/
def CacheEntryStatus.new : CacheEntryStatus :=
  ⟨false, false, false, false, false, false⟩

/-- Rust `RevalidateIntent` (src/revalidate.rs): the packed bitset of pending fetch
reasons, one `Bool` per bit. -/
structure RevalidateIntent where
  manuallyTriggered : Bool
  applicationFocused : Bool
  retryOnError : Bool
  firstUsage : Bool
  refreshInterval : Bool
  stale : Bool
  mutate : Bool
deriving DecidableEq, Repr

/-- The empty intent bitset (`RevalidateIntent::default`). -/
def RevalidateIntent.empty : RevalidateIntent :=
  ⟨false, false, false, false, false, false, false⟩

/-- Whether any intent bit is set (the `intent != 0` test after `take`). -/
def RevalidateIntent.isAny (i : RevalidateIntent) : Bool :=
  i.manuallyTriggered || i.applicationFocused || i.retryOnError || i.firstUsage ||
    i.refreshInterval || i.stale || i.mutate

/-- Rust `MismatchedTypeError` (src/error.rs): both runtime type identifiers plus
the debug-build type names. -/
structure MismatchedTypeError where
  contained_type : Nat
  wanted_type : Nat
  contained_type_name : String
  wanted_type_name : String
deriving DecidableEq, Repr

/-- Rust `CacheEntryData` (src/cache/entry.rs): a type-erased payload
(`Arc<dyn Any + Send + Sync>`) modelled as a value tagged with the runtime
type identifier of its actual type, plus the debug-build type name. -/
structure CacheEntryData where
  valueTypeId : Nat
  value : Nat
  typeName : String
deriving DecidableEq, Repr

/-- The `TypeId` of `MaybeUninit<CacheEntryData>`: in `CacheEntry::data`
(src/cache/entry.rs line 109) the expression `self.data.type_id()` resolves
`Any::type_id` on the concrete type of the field itself, `MaybeUninit<CacheEntryData>`
(which has no `Deref`), so it yields this one fixed identifier no matter what
payload is stored.  Payload type identifiers are the `valueTypeId` tags, which
for user payload types are distinct from the identifier of this wrapper type; the
encoding reserves `0` for the wrapper and positive tags for payload types. -/
def maybeUninitCacheEntryDataTypeId : Nat := 0

/-- Rust `CacheEntry` (src/cache/entry.rs), restricted to the fields the claims
are about.  The three task slots are summarised by `fetchTaskRunning`
(whether `fetch_task` holds an unfinished task); timestamps are absolute
nanosecond values (the source stores nanosecond offsets from a base
`Instant`, with `u64::MAX` encoding a missing `last_request_time`, modelled as
`Option Nat`). -/
structure CacheEntry where
  key : Nat
  retryCount : Nat
  status : CacheEntryStatus
  revalidateIntent : RevalidateIntent
  data : Option CacheEntryData
  error : Option Nat
  lastDrawTime : Nat
  lastRequestTime : Option Nat
  fetchTaskRunning : Bool
  strongCount : Nat
  options : StoredOptions
deriving DecidableEq

/-- Rust `CacheEntry::new` (src/cache/entry.rs): fresh defaults; `base_time` is the
creation instant so `last_draw_time` starts at the creation time, and
`last_request_time` starts missing. -/
def CacheEntry.new (key : Nat) (now : Nat) : CacheEntry where
  key := key
  retryCount := 0
  status := CacheEntryStatus.new
  revalidateIntent := RevalidateIntent.empty
  data := none
  error := none
  lastDrawTime := now
  lastRequestTime := none
  fetchTaskRunning := false
  strongCount := 0
  options := StoredOptions.default

/-- Rust `CacheEntry::data::<T>` (src/cache/entry.rs): `none` when `HAS_DATA` is
clear; otherwise the downcast payload, or a `MismatchedTypeError` whose
`contained_type` is `self.data.type_id()` — the `TypeId` of the
`MaybeUninit<CacheEntryData>` field itself, NOT of the stored payload — and
whose `contained_type_name` is the recorded debug name of the stored payload. -/
def CacheEntry.dataAs (e : CacheEntry) (wantedType : Nat) (wantedTypeName : String) :
    Option (Except MismatchedTypeError Nat) :=
  if e.status.hasData then
    match e.data with
    | some d =>
      if d.valueTypeId = wantedType then
        some (Except.ok d.value)
      else
        some (Except.error
          { contained_type := maybeUninitCacheEntryDataTypeId
            wanted_type := wantedType
            contained_type_name := d.typeName
            wanted_type_name := wantedTypeName })
    | none => some (Except.ok 0)
  else
    none

/-- Rust `CacheEntry::insert_untyped` (src/cache/entry.rs): clear
`LOADING | VALIDATING`; set `HAS_DATA`, returning the previous payload when
the flag was already set; write the new payload; clear `HAS_ERROR` and drop
the previous error; zero `retry_count`; stamp `last_request_time`. -/
def CacheEntry.insert_untyped (e : CacheEntry) (d : CacheEntryData) (now : Nat) :
    CacheEntry × Option CacheEntryData :=
  let oldData := if e.status.hasData then e.data else none
  ({ e with
      status := { e.status with loading := false, validating := false, hasData := true, hasError := false }
      data := some d
      error := none
      retryCount := 0
      lastRequestTime := some now },
    oldData)

/-- Rust `CacheEntry::insert` (src/cache/entry.rs): the typed wrapper around
`insert_untyped`, tagging the payload with its type name. -/
def CacheEntry.insert (e : CacheEntry) (d : CacheEntryData) (now : Nat) :
    CacheEntry × Option CacheEntryData :=
  e.insert_untyped d now

/-- Rust `CacheEntry::insert_error` (src/cache/entry.rs): clear
`LOADING | VALIDATING`; set `HAS_ERROR`, dropping any previous error; write
the new error; stamp `last_request_time`.  Data, `HAS_DATA` and `retry_count`
are untouched. -/
def CacheEntry.insert_error (e : CacheEntry) (err : Nat) (now : Nat) : CacheEntry :=
  { e with
      status := { e.status with loading := false, validating := false, hasError := true }
      error := some err
      lastRequestTime := some now }

/-- Rust `CacheEntry::mark_used` (src/cache/entry.rs): stamp `last_draw_time` and
set `USED_THIS_PASS`. -/
def CacheEntry.mark_used (e : CacheEntry) (now : Nat) : CacheEntry :=
  { e with lastDrawTime := now, status := { e.status with usedThisPass := true } }

/-- Rust `TaskStartMode` (src/util.rs). -/
inductive TaskStartMode where
  | soft
  | override
  | abort
deriving DecidableEq, Repr

/-- The `TaskSlot::insert` launch decision (src/util.rs): `Soft` refuses when
a task is present and not finished; `Abort` and `Override` always spawn.
`fetchTaskRunning` models "present and not finished". -/
def taskSlotDidLaunch (running : Bool) : TaskStartMode → Bool
  | TaskStartMode.soft => !running
  | TaskStartMode.override => true
  | TaskStartMode.abort => true

/-- The synchronous part of `launch_fetch` (src/revalidate.rs lines 72-136):
ask `fetch_task` to insert with the given mode; if it launched, set
`VALIDATING` when `HAS_DATA` is set, else set `LOADING`.  The spawned task
body runs later (at a suspension point) and is modelled separately by
`fetchOkCompletion` / `fetchErrorCompletion`. -/
def launch_fetch (e : CacheEntry) (mode : TaskStartMode) : CacheEntry :=
  if taskSlotDidLaunch e.fetchTaskRunning mode then
    let e := { e with fetchTaskRunning := true }
    if e.status.hasData then
      { e with status := { e.status with validating := true } }
    else
      { e with status := { e.status with loading := true } }
  else
    e

/-- The success arm of the fetch task body (src/revalidate.rs lines 93-105):
`state.insert(Arc::new(data))`; the `launch_refresh` follow-up concerns the
refresh task slot and is not tracked per-entry here.  The fetch task itself
has finished once its body runs. -/
def fetchOkCompletion (e : CacheEntry) (d : CacheEntryData) (now : Nat) : CacheEntry :=
  let e := { e with fetchTaskRunning := false }
  (e.insert d now).1

/-- The error arm of the fetch task body (src/revalidate.rs lines 106-123):
`state.insert_error(Arc::new(err))`; then
`let retry_count = state.retry_count.fetch_add(1, AcqRel)` (which returns the
PRE-increment value and wraps at 256); then, if `error_retry_interval` is set,
`let max_count = options.error_retry_count.map_or(0, NonZeroU8::get)` and
`launch_retry` is called iff `max_count == 0 || retry_count < max_count`.
Returns the updated entry and whether `launch_retry` was called. -/
def fetchErrorCompletion (e : CacheEntry) (err : Nat) (now : Nat) : CacheEntry × Bool :=
  let e := { e with fetchTaskRunning := false }
  let e := e.insert_error err now
  let retry_count := e.retryCount
  let e := { e with retryCount := (retry_count + 1) % 256 }
  match e.options.errorRetryIntervalMs with
  | some _ =>
    let maxCount := e.options.errorRetryCount.elim 0 Subtype.val
    if maxCount = 0 || retry_count < maxCount then (e, true) else (e, false)
  | none => (e, false)

/-- Rust `throttle` (src/util.rs): true when the elapsed time since `prev_time`
reaches `throttle_time`, or when either is missing. -/
def throttle (prevTime : Option Nat) (throttleTime : Option Nat) (now : Nat) : Bool :=
  match prevTime, throttleTime with
  | some prev, some t => decide (now - prev ≥ t)
  | _, _ => true

/-- The body of the retry task after its sleep (src/revalidate.rs lines
183-197): stop when `HAS_ERROR` or `ALIVE` is clear; otherwise, if the
throttle allows, `launch_fetch(Soft, RETRY_ON_ERROR)`.  Returns the updated
entry and whether a fetch was launched. -/
def retryTaskBody (e : CacheEntry) (now : Nat) : CacheEntry × Bool :=
  if e.status.hasError = false || e.status.alive = false then
    (e, false)
  else if throttle e.lastRequestTime e.options.throttle now then
    (launch_fetch e TaskStartMode.soft, true)
  else
    (e, false)

/-- Rust `Error<F>` (src/error.rs): a fetcher error or a type mismatch. -/
inductive ResultError where
  | fetcher (e : Nat)
  | mismatchedType (e : MismatchedTypeError)
deriving DecidableEq, Repr

/-- The data fields of `FetchResult<T>` (src/result.rs): the snapshot returned
by `Persisted::get` / `get_shallow`. -/
structure FetchResultView where
  data : Option Nat
  error : Option ResultError
  loading : Bool
  validating : Bool
deriving DecidableEq, Repr

/-- The per-frame environment observed by `Persisted::get_inner`: the answer
of the hook method `was_focus_triggered()` and the current instant. -/
structure GetCtx where
  wasFocusTriggered : Bool
  now : Nat
deriving DecidableEq, Repr

/-- Rust `Persisted::get_inner` (src/result.rs lines 77-154) on a resolvable slot.
Reads the snapshot (data downcast as type `wantedType`, falling back to the
per-call `fallback` of the handle on a mismatch or missing data; fetcher error,
then mismatch error `or`-ed in); when `update` is true it additionally
computes the intent bits (focus-triggered revalidation under the focus
throttle; `FIRST_USAGE` / unstick / `STALE` when the entry was not `ALIVE`),
marks the entry used, drains the intent and — when any bit was set — calls
`launch_fetch` with `Abort` iff `MANUALLY_TRIGGERED` was drained, re-reading
`loading` / `validating` afterwards.  Returns the snapshot and the updated
entry. -/
def Persisted.get_inner (e : CacheEntry) (ctx : GetCtx) (fallback : Option Nat)
    (wantedType : Nat) (wantedTypeName : String) (update : Bool) :
    FetchResultView × CacheEntry :=
  let status := e.status
  let wasAlive := status.alive
  let error0 : Option ResultError := e.error.map ResultError.fetcher
  let dataError : Option Nat × Option ResultError :=
    match e.dataAs wantedType wantedTypeName with
    | some (Except.ok v) => (some v, error0)
    | some (Except.error me) => (fallback, error0.or (some (ResultError.mismatchedType me)))
    | none => (fallback, error0)
  let data := dataError.1
  let error := dataError.2
  let loading := status.loading
  let validating := status.validating
  if update then
    let intent := e.revalidateIntent
    let focusThrottled : Bool :=
      match e.options.focus_throttle_interval with
      | some t => decide (ctx.now - e.lastDrawTime < t)
      | none => false
    let intent :=
      if ctx.wasFocusTriggered && e.options.revalidateFlags.onFocus && !focusThrottled then
        { intent with applicationFocused := true }
      else intent
    let intent :=
      if !wasAlive then
        if (e.options.revalidateFlags.onFirstUse && data.isNone)
            || (loading && !e.fetchTaskRunning) then
          { intent with firstUsage := true }
        else
          { intent with stale := true }
      else intent
    let e := e.mark_used ctx.now
    let e := { e with revalidateIntent := RevalidateIntent.empty }
    if intent.isAny then
      let mode := if intent.manuallyTriggered then TaskStartMode.abort else TaskStartMode.soft
      let e := launch_fetch e mode
      (⟨data, error, e.status.loading, e.status.validating⟩, e)
    else
      (⟨data, error, loading, validating⟩, e)
  else
    (⟨data, error, loading, validating⟩, e)

/-- Rust `SWRInner::mutate` (src/lib.rs lines 107-116): replace the entry data
of the slot with a successful result (`state.insert(data)`) and request a redraw. -/
def SWRInner.mutate (e : CacheEntry) (d : CacheEntryData) (now : Nat) : CacheEntry :=
  (e.insert d now).1

/-- Rust `SWRInner::mutate_with` (src/lib.rs lines 118-177), as the sequential
effect of the spawned task on one entry: apply the optimistic data (if any)
via `insert`, remembering the displaced payload; await the mutator (whose
populated result is `res` — the `populator` application is folded into the
`Except.ok` payload); abort any in-flight fetch task; on success `insert` the
result and optionally add the `MUTATE` intent; on failure, when
`rollback_on_error` is set and a previous payload was displaced, restore it
with `insert_untyped`. -/
def SWRInner.mutate_with (e : CacheEntry) (optimisticData : Option CacheEntryData)
    (rollbackOnError revalidateAfter : Bool) (res : Except Nat CacheEntryData)
    (now : Nat) : CacheEntry :=
  let step1 : CacheEntry × Option CacheEntryData :=
    match optimisticData with
    | some d => e.insert d now
    | none => (e, none)
  let e := step1.1
  let previousData := step1.2
  let e := { e with fetchTaskRunning := false }
  match res with
  | Except.ok d =>
    let e := (e.insert d now).1
    if revalidateAfter then
      { e with revalidateIntent := { e.revalidateIntent with mutate := true } }
    else e
  | Except.error _ =>
    if rollbackOnError then
      match previousData with
      | some p => (e.insert_untyped p now).1
      | none => e
    else e

/-- Treatment of one entry by the end-of-frame GC callback installed in
`SWR::new_in` (src/lib.rs lines 209-240): clear `USED_THIS_PASS` noting
whether it was set; if used, set `ALIVE` and keep; otherwise clear `ALIVE`
noting whether it was set, and evict only when it was already clear,
`strong_count == 0`, and `last_draw_time.elapsed() >= garbage_collect_timeout`
with the timeout present.  Returns `(keep, updated entry)`. -/
def gcStep (e : CacheEntry) (now : Nat) : Bool × CacheEntry :=
  let used := e.status.usedThisPass
  let e := { e with status := { e.status with usedThisPass := false } }
  if used then
    (true, { e with status := { e.status with alive := true } })
  else
    let wasAlive := e.status.alive
    let e := { e with status := { e.status with alive := false } }
    if !wasAlive && e.strongCount = 0 then
      let shouldGc :=
        match e.options.garbage_collect_timeout with
        | some timeout => decide (now - e.lastDrawTime ≥ timeout)
        | none => false
      if shouldGc then
        (false, { e with fetchTaskRunning := false })
      else
        (true, e)
    else
      (true, e)

/-- Rust `Cache` (src/cache/mod.rs): the key-to-slot map and the slot-indexed
entry store, modelled as association lists. -/
structure Cache where
  keyToSlot : List (Nat × Nat)
  states : List (Nat × CacheEntry)
deriving DecidableEq

/-- The end-of-frame GC pass (src/lib.rs lines 209-240 with
`Cache::retain`, src/cache/mod.rs lines 58-69): run `gcStep` on every entry,
dropping the entries it rejects together with their key-to-slot mappings. -/
def Cache.endFrame (c : Cache) (now : Nat) : Cache where
  states := c.states.filterMap fun se =>
    let r := gcStep se.2 now
    if r.1 then some (se.1, r.2) else none
  keyToSlot := c.keyToSlot.filter fun ks =>
    c.states.all fun se => (gcStep se.2 now).1 || se.2.key ≠ ks.1

/-- The entry operations named by the status-flag invariant: data insertion
(fetch success / `insert`), error insertion (fetch failure / `insert_error`),
the `launch_fetch` flag update, and the synchronous `mutate`. -/
inductive EntryOp where
  | opInsert (d : CacheEntryData) (now : Nat)
  | opInsertError (err : Nat) (now : Nat)
  | opLaunchFetch (mode : TaskStartMode)
  | opMutate (d : CacheEntryData) (now : Nat)
deriving DecidableEq

/-- Apply one entry operation.  `opLaunchFetch` performs the whole
`launch_fetch` step (the flag update happens exactly when the task slot
accepted the insertion); `opMutate` is `SWRInner::mutate`. -/
def EntryOp.apply (op : EntryOp) (e : CacheEntry) : CacheEntry :=
  match op with
  | EntryOp.opInsert d now => (e.insert d now).1
  | EntryOp.opInsertError err now => e.insert_error err now
  | EntryOp.opLaunchFetch mode => launch_fetch e mode
  | EntryOp.opMutate d now => SWRInner.mutate e d now

/-- Run a list of entry operations from a starting entry. -/
def runEntryOps (e : CacheEntry) (ops : List EntryOp) : CacheEntry :=
  ops.foldl (fun e op => op.apply e) e

/-- The status-flag invariant of spec section 3: `LOADING` and `VALIDATING`
are never both set, `VALIDATING` implies `HAS_DATA`, and `LOADING` implies
`HAS_DATA` is clear. -/
def statusInv (s : CacheEntryStatus) : Prop :=
  ¬(s.loading = true ∧ s.validating = true) ∧
    (s.validating = true → s.hasData = true) ∧
    (s.loading = true → s.hasData = false)

instance (s : CacheEntryStatus) : Decidable (statusInv s) := by
  unfold statusInv; infer_instance

/-- The per-call options of the `retry` scenario (src/tests.rs lines 141-148):
`Options::immutable()` with `error_retry_interval = 3s` and
`error_retry_count = 3`. -/
def retryTestOptions : Options :=
  { Options.immutable with
      error_retry_interval := some (3 * 1000000000)
      error_retry_count := some ⟨3, by decide⟩ }

/-- State of the retry-budget scenario simulation: the entry, the paused
clock, how many times the fetcher has been called, the wake-up time of a
sleeping retry task, and whether a spawned fetch body is waiting to run at
the next yield. -/
structure RetrySim where
  e : CacheEntry
  now : Nat
  fetchCalls : Nat
  retryScheduledAt : Option Nat
  fetchBodyPending : Bool
deriving DecidableEq

/-- The fetcher `Key::ErrorNTimes(3)` (src/fetcher.rs mock): the first three
calls (indices 0, 1, 2) fail, later calls succeed. -/
def errorNTimesFails (callIndex : Nat) : Bool :=
  callIndex < 3

/-- One `yield_now().await` of the retry scenario: a retry task whose sleep
has elapsed runs its body (possibly launching a fetch), then a pending fetch
body runs to completion against the `ErrorNTimes(3)` fetcher, scheduling the
next retry per `fetchErrorCompletion` (`launch_retry` sleeps
`error_retry_interval` before its body runs). -/
def retrySimYield (s : RetrySim) : RetrySim :=
  let s :=
    match s.retryScheduledAt with
    | some t =>
      if t ≤ s.now then
        let r := retryTaskBody s.e s.now
        { s with e := r.1, retryScheduledAt := none
                 fetchBodyPending := s.fetchBodyPending || r.2 }
      else s
    | none => s
  if s.fetchBodyPending then
    let idx := s.fetchCalls
    let s := { s with fetchCalls := idx + 1, fetchBodyPending := false }
    if errorNTimesFails idx then
      let r := fetchErrorCompletion s.e 7 s.now
      let retryAt : Option Nat :=
        if r.2 then (r.1.options.error_retry_interval).map (s.now + ·) else none
      { s with e := r.1, retryScheduledAt := retryAt }
    else
      { s with e := fetchOkCompletion s.e ⟨1, 42, "usize"⟩ s.now }
  else s

/-- Advance the paused clock (`tokio::time::advance`). -/
def retrySimAdvance (s : RetrySim) (d : Nat) : RetrySim :=
  { s with now := s.now + d }

/-- The initial scenario state: `get_with(ErrorNTimes(3), retryTestOptions)`
inside a frame — entry creation with fresh defaults, the options merge done
by the handle, `get` (which launches the first-usage fetch), and the end-of-frame
pass (which marks the entry `ALIVE`). -/
def retrySimInit : RetrySim :=
  let e0 := CacheEntry.new 0 0
  let e0 := { e0 with options := e0.options.update_from_inner retryTestOptions }
  let r := Persisted.get_inner e0 ⟨false, 0⟩ none 1 "usize" true
  let e1 := r.2
  let g := gcStep e1 0
  { e := g.2, now := 0, fetchCalls := 0, retryScheduledAt := none
    fetchBodyPending := e1.fetchTaskRunning }

/-- The final state of the retry-budget scenario: the initial fetch resolves
at the first yield, then three repetitions of (advance 3 seconds, yield). -/
def retryScenarioFinal : RetrySim :=
  let s := retrySimInit
  let s := retrySimYield s
  let s := retrySimYield (retrySimAdvance s 3000000000)
  let s := retrySimYield (retrySimAdvance s 3000000000)
  retrySimYield (retrySimAdvance s 3000000000)

/-- Stored options of an entry whose key was requested `n` times, always with
`Options::immutable()`: entry creation initialises them to
`StoredOptions::default()` and every request merges `Options::immutable()` in
via `update_from` (`Persisted::new`, src/result.rs lines 34-50). -/
def mergeImmutableN : Nat → StoredOptions
  | 0 => StoredOptions.default
  | n + 1 => (mergeImmutableN n).update_from_inner Options.immutable

/-- C1, counterexample.  The claim says an entry only ever requested with
`Options::immutable()` has the stored focus-revalidation flag disabled and no
garbage-collect timeout.  In fact, after a fresh entry (whose stored options
are `StoredOptions::default()`, inherited from `Options::default()`) merges
`Options::immutable()` once, `ON_FOCUS` is set and the stored GC timeout is
the default 600000 ms — and the end-of-frame GC does evict such an entry once
it is old enough. -/
theorem immutable_only_entry_cex :
    (StoredOptions.default.update_from_inner Options.immutable).revalidateFlags.onFocus = true ∧
    (StoredOptions.default.update_from_inner Options.immutable).garbageCollectTimeoutMs = some 600000 ∧
    (gcStep { CacheEntry.new 0 0 with
        options := StoredOptions.default.update_from_inner Options.immutable } 1000000000000).1 = false := by
  decide

/-- C1, amended.  However many times a key is requested with
`Options::immutable()`, the merged stored options keep the focus-revalidation
flag SET and the garbage-collect timeout at the default 600000 ms: the stored
options are initialised from `Options::default()` at entry creation, flags
only ever OR in, and `merge_min` treats the missing per-call timeout as no
constraint.  Consequently such an entry is age-evicted by the end-of-frame GC
once it is unobserved, unreferenced and old enough. -/
theorem immutable_only_entry_keeps_defaults : ∀ n : Nat,
    (mergeImmutableN n).revalidateFlags.onFocus = true ∧
    (mergeImmutableN n).garbageCollectTimeoutMs = some 600000 ∧
    (gcStep { CacheEntry.new 0 0 with options := mergeImmutableN n } 1000000000000).1 = false := by
  intro n
  induction n with
  | zero => decide
  | succ n ih =>
    obtain ⟨h1, h2, _⟩ := ih
    refine ⟨?_, ?_, ?_⟩
    · simp [mergeImmutableN, StoredOptions.update_from_inner, Options.immutable, Options.default]
    · simp [mergeImmutableN, StoredOptions.update_from_inner, Options.immutable, Options.default,
        duration_as_optional_millis, h2, merge_min]
    · simp [gcStep, CacheEntry.new, CacheEntryStatus.new, StoredOptions.garbage_collect_timeout]
      simp [mergeImmutableN, StoredOptions.update_from_inner, Options.immutable, Options.default,
        duration_as_optional_millis, h2, merge_min]

/-- C2.  `StoredOptions::update_from_inner` sets the stored `ON_FOCUS` flag
under `if options.fetch_on_first_use` and never reads `revalidate_on_focus`
(src/options.rs lines 163-165): a call with `revalidate_on_focus = true` but
`fetch_on_first_use = false` leaves the flag clear, while one with
`revalidate_on_focus = false` but `fetch_on_first_use = true` sets it —
contradicting the documented field semantics the claim states. -/
theorem on_focus_follows_fetch_on_first_use :
    ((StoredOptions.empty.update_from_inner
        { Options.default with revalidate_on_focus := true, fetch_on_first_use := false }).revalidateFlags.onFocus
      = false) ∧
    ((StoredOptions.empty.update_from_inner
        { Options.default with revalidate_on_focus := false, fetch_on_first_use := true }).revalidateFlags.onFocus
      = true) := by
  decide

/-- C3.  Reading an entry that stores a payload of type id 1 as type id 2
yields a `MismatchedTypeError` whose `contained_type` is the fixed `TypeId`
of the `MaybeUninit<CacheEntryData>` field itself (`self.data.type_id()`,
src/cache/entry.rs line 109), NOT the type id of the stored payload — even
though the debug type name does come from the payload; `wanted_type` is
correct. -/
theorem mismatched_contained_type_is_wrapper_id :
    (((CacheEntry.new 0 0).insert ⟨1, 42, "u32"⟩ 0).1.dataAs 2 "String" =
      some (Except.error
        { contained_type := maybeUninitCacheEntryDataTypeId
          wanted_type := 2
          contained_type_name := "u32"
          wanted_type_name := "String" })) ∧
    maybeUninitCacheEntryDataTypeId ≠ 1 := by
  constructor
  · rfl
  · decide

/-- C4, counterexample.  `mutate` on a fresh (never observed, hence not
`ALIVE`) key immediately followed by `get` with no intervening suspension
returns `data = Some(v)` and `loading = false`, but `validating = TRUE`: the
`get` adds the `STALE` intent for the revived entry and synchronously
launches a revalidating fetch before the snapshot flags are re-read. -/
theorem mutate_then_get_cex :
    ((Persisted.get_inner (SWRInner.mutate (CacheEntry.new 0 0) ⟨1, 42, "usize"⟩ 0)
        ⟨false, 5⟩ none 1 "usize" true).1.data = some 42) ∧
    ((Persisted.get_inner (SWRInner.mutate (CacheEntry.new 0 0) ⟨1, 42, "usize"⟩ 0)
        ⟨false, 5⟩ none 1 "usize" true).1.loading = false) ∧
    ((Persisted.get_inner (SWRInner.mutate (CacheEntry.new 0 0) ⟨1, 42, "usize"⟩ 0)
        ⟨false, 5⟩ none 1 "usize" true).1.validating = true) := by
  refine ⟨rfl, rfl, rfl⟩

/-- C4, amended.  `mutate(k, v)` immediately followed by `get(k)` (no
intervening suspension, frame not focus-triggered, no pending intent) returns
`data = Some(v)`, `error = None` and `loading = false`; `validating` is
`false` when the entry was `ALIVE`, but `true` when it was not `ALIVE` and no
fetch task was in flight (the `get` then launches a stale revalidation). -/
theorem mutate_then_get :
    ∀ (e : CacheEntry) (tid v : Nat) (name : String) (mnow : Nat) (ctx : GetCtx) (fb : Option Nat),
      ctx.wasFocusTriggered = false →
      e.revalidateIntent = RevalidateIntent.empty →
      ((Persisted.get_inner (SWRInner.mutate e ⟨tid, v, name⟩ mnow) ctx fb tid name true).1.data
          = some v ∧
        (Persisted.get_inner (SWRInner.mutate e ⟨tid, v, name⟩ mnow) ctx fb tid name true).1.error
          = none ∧
        (Persisted.get_inner (SWRInner.mutate e ⟨tid, v, name⟩ mnow) ctx fb tid name true).1.loading
          = false) ∧
      (e.status.alive = true →
        (Persisted.get_inner (SWRInner.mutate e ⟨tid, v, name⟩ mnow) ctx fb tid name true).1.validating
          = false) ∧
      (e.status.alive = false → e.fetchTaskRunning = false →
        (Persisted.get_inner (SWRInner.mutate e ⟨tid, v, name⟩ mnow) ctx fb tid name true).1.validating
          = true) := by
  intro e tid v name mnow ctx fb hfocus hintent
  by_cases ha : e.status.alive = true
  · simp [Persisted.get_inner, SWRInner.mutate, CacheEntry.insert, CacheEntry.insert_untyped,
      CacheEntry.dataAs, CacheEntry.mark_used, launch_fetch, taskSlotDidLaunch,
      RevalidateIntent.isAny, RevalidateIntent.empty, hfocus, hintent, ha]
  · have ha' : e.status.alive = false := by
      cases hh : e.status.alive
      · rfl
      · exact absurd hh ha
    by_cases hftr : e.fetchTaskRunning = true
    · simp [Persisted.get_inner, SWRInner.mutate, CacheEntry.insert, CacheEntry.insert_untyped,
        CacheEntry.dataAs, CacheEntry.mark_used, launch_fetch, taskSlotDidLaunch,
        RevalidateIntent.isAny, RevalidateIntent.empty, hfocus, hintent, ha', hftr]
    · have hftr' : e.fetchTaskRunning = false := by
        cases hh : e.fetchTaskRunning
        · rfl
        · exact absurd hh hftr
      simp [Persisted.get_inner, SWRInner.mutate, CacheEntry.insert, CacheEntry.insert_untyped,
        CacheEntry.dataAs, CacheEntry.mark_used, launch_fetch, taskSlotDidLaunch,
        RevalidateIntent.isAny, RevalidateIntent.empty, hfocus, hintent, ha', hftr']

/-- C4, witness.  Instantiates the amended theorem on a concrete `ALIVE`
entry: the snapshot after mutate-then-get has `validating = false`. -/
theorem mutate_then_get_witness :
    (Persisted.get_inner (SWRInner.mutate { CacheEntry.new 0 0 with
        status := { (CacheEntry.new 0 0).status with alive := true } } ⟨1, 42, "usize"⟩ 0)
      ⟨false, 5⟩ none 1 "usize" true).1.validating = false :=
  (mutate_then_get { CacheEntry.new 0 0 with
      status := { (CacheEntry.new 0 0).status with alive := true } }
    1 42 "usize" 0 ⟨false, 5⟩ none rfl rfl).2.1 rfl

/-- C5.  After a failed fetch, `launch_retry` is called iff
`error_retry_interval` is set and (`error_retry_count` is none or the retry
count — as read by `fetch_add`, i.e. the consecutive-failure count BEFORE
this failure is counted — is below `error_retry_count`); and the retry-budget
scenario (fetcher failing its first 3 calls, `error_retry_interval = 3s`,
`error_retry_count = 3`, initial fetch then three repetitions of advance-3s
plus yield) ends with `HAS_ERROR` clear and the fetcher called exactly 4
times. -/
theorem retry_schedule_iff_and_budget_scenario :
    (∀ (e : CacheEntry) (err now : Nat),
      ((fetchErrorCompletion e err now).2 = true ↔
        (e.options.errorRetryIntervalMs.isSome ∧
          (e.options.errorRetryCount = none ∨
            ∃ c : NonZeroU8, e.options.errorRetryCount = some c ∧ e.retryCount < c.val)))) ∧
    retryScenarioFinal.e.status.hasError = false ∧
    retryScenarioFinal.fetchCalls = 4 := by
  refine ⟨?_, by decide, by decide⟩
  intro e err now
  rcases hIv : e.options.errorRetryIntervalMs with _ | iv <;>
    rcases hC : e.options.errorRetryCount with _ | c <;>
      simp [fetchErrorCompletion, CacheEntry.insert_error, hIv, hC]
  obtain ⟨hpos, _⟩ := c.2
  split_ifs with h <;> simp <;> omega

/-- C6.  The end-of-frame GC evicts an entry only when `USED_THIS_PASS` was
clear, `ALIVE` was already clear, `strong_count` is zero, a garbage-collect
timeout is stored, and at least that long (in nanoseconds) has elapsed since
`last_draw_time`; an entry with a positive `strong_count` is always kept; and
a kept entry stays in the states list (with its updated status) across
`Cache.endFrame`. -/
theorem gc_eviction_conditions : ∀ (e : CacheEntry) (now : Nat),
    ((gcStep e now).1 = false →
      e.status.usedThisPass = false ∧ e.status.alive = false ∧ e.strongCount = 0 ∧
        ∃ t, e.options.garbageCollectTimeoutMs = some t ∧ now - e.lastDrawTime ≥ t * 1000000) ∧
    (0 < e.strongCount → (gcStep e now).1 = true) ∧
    (∀ (c : Cache) (s : Nat), (s, e) ∈ c.states → (gcStep e now).1 = true →
      (s, (gcStep e now).2) ∈ (c.endFrame now).states) := by
  intro e now
  refine ⟨?_, ?_, ?_⟩
  · intro h
    by_cases hu : e.status.usedThisPass <;>
      by_cases ha : e.status.alive <;>
        simp [gcStep, hu, ha] at h ⊢
    by_cases hs : e.strongCount = 0 <;> simp [hs] at h ⊢
    rcases hms : e.options.garbageCollectTimeoutMs with _ | ms <;>
      simp [StoredOptions.garbage_collect_timeout, hms] at h
    split_ifs at h with hle
    exact ⟨ms, rfl, hle⟩
  · intro h
    by_cases hu : e.status.usedThisPass <;>
      by_cases ha : e.status.alive <;>
        simp [gcStep, hu, ha]
    rw [if_neg (by omega)]
  · intro c s hmem hkeep
    refine List.mem_filterMap.mpr ⟨(s, e), hmem, ?_⟩
    simp [hkeep]

/-- C6, witness.  Instantiates the GC theorem on a fresh entry old enough to
be collected (its eviction conditions all hold concretely) and on an entry
with `strong_count = 1` (which is kept, and survives `Cache.endFrame`). -/
theorem gc_eviction_conditions_witness :
    ((CacheEntry.new 0 0).status.usedThisPass = false ∧ (CacheEntry.new 0 0).status.alive = false ∧
      (CacheEntry.new 0 0).strongCount = 0 ∧
      ∃ t, (CacheEntry.new 0 0).options.garbageCollectTimeoutMs = some t ∧
        1000000000000 - (CacheEntry.new 0 0).lastDrawTime ≥ t * 1000000) ∧
    (gcStep { CacheEntry.new 0 0 with strongCount := 1 } 5).1 = true ∧
    ((0 : Nat), (gcStep { CacheEntry.new 0 0 with strongCount := 1 } 5).2) ∈
      ((Cache.mk [] [(0, { CacheEntry.new 0 0 with strongCount := 1 })]).endFrame 5).states :=
  ⟨(gc_eviction_conditions (CacheEntry.new 0 0) 1000000000000).1 (by decide),
   (gc_eviction_conditions { CacheEntry.new 0 0 with strongCount := 1 } 5).2.1 (by decide),
   (gc_eviction_conditions { CacheEntry.new 0 0 with strongCount := 1 } 5).2.2
     (Cache.mk [] [(0, { CacheEntry.new 0 0 with strongCount := 1 })]) 0 (by simp)
     ((gc_eviction_conditions { CacheEntry.new 0 0 with strongCount := 1 } 5).2.1 (by decide))⟩

/-- Helper: each entry operation preserves the status-flag invariant. -/
theorem statusInv_apply : ∀ (e : CacheEntry) (op : EntryOp),
    statusInv e.status → statusInv (op.apply e).status := by
  rintro ⟨k, rc, ⟨d, er, l, v, a, u⟩, ri, da, err, ld, lr, ftr, sc, opt⟩ op h
  cases op with
  | opInsert dd now =>
    simp [EntryOp.apply, CacheEntry.insert, CacheEntry.insert_untyped, statusInv]
  | opInsertError e₂ now =>
    simp [EntryOp.apply, CacheEntry.insert_error, statusInv]
  | opMutate dd now =>
    simp [EntryOp.apply, SWRInner.mutate, CacheEntry.insert, CacheEntry.insert_untyped, statusInv]
  | opLaunchFetch mode =>
    cases mode <;> cases ftr <;> cases d <;> cases l <;> cases v <;>
      simp_all [EntryOp.apply, launch_fetch, taskSlotDidLaunch, statusInv]

/-- Helper: the status-flag invariant holds along any operation sequence. -/
theorem statusInv_run : ∀ (ops : List EntryOp) (e : CacheEntry),
    statusInv e.status → statusInv (runEntryOps e ops).status := by
  intro ops
  induction ops with
  | nil => intro e h; exact h
  | cons op ops ih => intro e h; exact ih _ (statusInv_apply e op h)

/-- C7.  In every state reachable from a fresh entry by the modelled
operations (data insertion, error insertion, the `launch_fetch` flag update,
synchronous mutate), `LOADING` and `VALIDATING` are never both set,
`VALIDATING` implies `HAS_DATA`, and `LOADING` implies `HAS_DATA` is clear;
and each single operation preserves this invariant from any state satisfying
it. -/
theorem status_flag_invariant :
    (∀ (k t : Nat) (ops : List EntryOp), statusInv (runEntryOps (CacheEntry.new k t) ops).status) ∧
    (∀ (e : CacheEntry) (op : EntryOp), statusInv e.status → statusInv (op.apply e).status) := by
  constructor
  · intro k t ops
    exact statusInv_run ops _ (by simp [CacheEntry.new, CacheEntryStatus.new, statusInv])
  · exact statusInv_apply

/-- C7, witness.  Instantiates invariant preservation on a concrete fresh
entry and a concrete `launch_fetch` flag update. -/
theorem status_flag_invariant_witness :
    statusInv ((EntryOp.opLaunchFetch TaskStartMode.soft).apply (CacheEntry.new 0 0)).status :=
  status_flag_invariant.2 (CacheEntry.new 0 0) (EntryOp.opLaunchFetch TaskStartMode.soft) (by decide)

/-- C8, counterexample.  The claim says merging always yields the minimum of
the stored and supplied values and never loses a set caller value; but a
supplied `garbage_collect_timeout` of `Duration::ZERO` converts to zero
milliseconds, which `NonZeroU32::new` turns into none, so the stored 5 ms
survives instead of the claimed minimum 0. -/
theorem merge_zero_duration_cex :
    ({ StoredOptions.empty with garbageCollectTimeoutMs := some 5 }.update_from_inner
        { Options.default with garbage_collect_timeout := some 0 }).garbageCollectTimeoutMs
      = some 5 ∧
    (5 : Nat) ≠ min 5 0 := by
  decide

/-- C8, amended.  Each of the five durations merges as `merge_min` of the
stored value and the supplied duration converted to whole milliseconds
truncated to 32 bits (a conversion that maps sub-millisecond or
zero-truncating durations to none, losing that caller value), and the retry
count merges as `merge_min` directly; `merge_min` returns the minimum of two
set values, keeps a set value over none, and is none only when both sides
are none. -/
theorem merge_min_semantics :
    ∀ (s : StoredOptions) (o : Options) (a b d : Nat) (c₁ c₂ : NonZeroU8),
      ((s.update_from_inner o).garbageCollectTimeoutMs
        = merge_min s.garbageCollectTimeoutMs (duration_as_optional_millis o.garbage_collect_timeout)) ∧
      ((s.update_from_inner o).focusThrottleIntervalMs
        = merge_min s.focusThrottleIntervalMs (duration_as_optional_millis o.focus_throttle_interval)) ∧
      ((s.update_from_inner o).refreshIntervalMs
        = merge_min s.refreshIntervalMs (duration_as_optional_millis o.refresh_interval)) ∧
      ((s.update_from_inner o).errorRetryIntervalMs
        = merge_min s.errorRetryIntervalMs (duration_as_optional_millis o.error_retry_interval)) ∧
      ((s.update_from_inner o).throttleMs
        = merge_min s.throttleMs (duration_as_optional_millis o.throttle)) ∧
      ((s.update_from_inner o).errorRetryCount = merge_min s.errorRetryCount o.error_retry_count) ∧
      (merge_min (some a) (none : Option Nat) = some a) ∧
      (merge_min (none : Option Nat) (some b) = some b) ∧
      (merge_min (some a) (some b) = some (min a b)) ∧
      (merge_min (none : Option Nat) none = none) ∧
      (merge_min (some c₁) (some c₂) = some (min c₁ c₂)) ∧
      (merge_min (some c₁) (none : Option NonZeroU8) = some c₁) ∧
      (duration_as_optional_millis (some d)
        = if (d / 1000000) % 4294967296 = 0 then none else some ((d / 1000000) % 4294967296)) ∧
      (duration_as_optional_millis (some 0) = none) := by
  intro s o a b d c₁ c₂
  refine ⟨rfl, rfl, rfl, rfl, rfl, rfl, rfl, rfl, rfl, rfl, rfl, rfl, rfl, rfl⟩

/-- C9.  A successful fetch completion (`insert`) clears the stored error
(both the payload and `HAS_ERROR`) and zeros `retry_count`; a failed fetch
completion (`insert_error`) leaves the stored data and the `HAS_DATA` flag
unchanged. -/
theorem insert_clears_error_insert_error_keeps_data :
    ∀ (e : CacheEntry) (d : CacheEntryData) (err now₁ now₂ : Nat),
      ((e.insert d now₁).1.error = none ∧ (e.insert d now₁).1.status.hasError = false ∧
        (e.insert d now₁).1.retryCount = 0) ∧
      ((e.insert_error err now₂).data = e.data ∧
        (e.insert_error err now₂).status.hasData = e.status.hasData) := by
  intro e d err n₁ n₂
  exact ⟨⟨rfl, rfl, rfl⟩, rfl, rfl⟩

/-- C10.  `mutate_with` with `optimistic_data = Some(v)` and
`rollback_on_error = true` on an entry that held no data: when the mutator
fails, the optimistic value `v` is NOT rolled back — only a previously
present payload is restored, and here none was displaced — so the entry still
holds `v` with `HAS_DATA` set. -/
theorem optimistic_not_rolled_back_to_empty :
    ∀ (e : CacheEntry) (v : CacheEntryData) (err now : Nat),
      e.status.hasData = false →
      (SWRInner.mutate_with e (some v) true false (Except.error err) now).data = some v ∧
      (SWRInner.mutate_with e (some v) true false (Except.error err) now).status.hasData = true := by
  intro e v err now h
  simp [SWRInner.mutate_with, CacheEntry.insert, CacheEntry.insert_untyped, h]

/-- C10, witness.  Instantiates the theorem on a concrete fresh entry. -/
theorem optimistic_not_rolled_back_to_empty_witness :
    (SWRInner.mutate_with (CacheEntry.new 3 0) (some ⟨1, 42, "usize"⟩) true false
        (Except.error 9) 7).data = some ⟨1, 42, "usize"⟩ ∧
    (SWRInner.mutate_with (CacheEntry.new 3 0) (some ⟨1, 42, "usize"⟩) true false
        (Except.error 9) 7).status.hasData = true :=
  optimistic_not_rolled_back_to_empty (CacheEntry.new 3 0) ⟨1, 42, "usize"⟩ 9 7 rfl

end SWR
